import Mathlib

/-!
Shallow embedding of the balance-and-order ledger of this repository
(`database.py`, `purchase.py`, `recharge.py`), with theorems checking the
specification's claims about it.

Modelling conventions:
* Monetary amounts (Python `Decimal`, stored through `str(...)` into SQLite
  columns) are modelled as `ℤ`, counting currency minor units — the spec's
  own data model fixes "currency-minor-unit precision" and a "fixed-point
  integer" storage format.  The arithmetic the embedded operations perform
  (addition, subtraction, comparison, multiplication by an exchange rate)
  is exact on `Decimal` and on `ℤ` alike.
* Each SQLite table is a list of rows in insertion order; an SQL
  `UPDATE ... WHERE k = ?` maps the update over every matching row, and the
  reported `rowcount` is the number of matching rows.  `SELECT ... WHERE
  k = ?` with `fetchone` returns the first matching row.
* `BEGIN TRANSACTION` / `COMMIT` / `ROLLBACK` become all-or-nothing state
  passing: an operation that rolls back returns the unchanged state.
* The `CHECK (balance >= 0)` column constraint of the `users` table raises
  on any UPDATE that would store a negative balance, which the Python code
  catches and converts into a rollback plus a `False` return; operations
  that run an unguarded `balance = balance + ?` therefore fail when the
  result would be negative.
* `PRAGMA foreign_keys = ON` is executed only on the initialisation
  connection inside `init_db`; `get_connection` never re-enables it, so at
  run time foreign keys are not enforced and inserts never check that the
  referenced user row exists.
* `CURRENT_TIMESTAMP` and datetime comparisons are modelled by a `Nat`
  clock field `now` of the state; SQLite compares the ISO-8601 strings
  lexicographically, which is order-isomorphic to comparing the instants.
-/

/-- A row of the `users` table (`database.py`, `init_db`). -/
structure UserRow where
  userId : Nat
  balance : ℤ
  status : String
deriving DecidableEq, Repr

/-- A row of the `transactions` table. -/
structure TxRow where
  txId : String
  userId : Nat
  amount : ℤ
  txType : String
  paymentMethod : String
  paymentSubtype : Option String
  paymentNumber : Option String
  originalAmount : Option ℤ
  originalCurrency : Option String
  exchangeRate : ℤ
  createdAt : Nat
  completedAt : Option Nat
  status : String
  rejectReason : Option String
  adminId : Option Nat
deriving DecidableEq, Repr

/-- A row of the `orders` table.  The `amount` column stores the game/app
account id supplied by the buyer (see `create_order`, which binds the
`game_id` argument to the `amount` column). -/
structure OrderRow where
  orderId : Nat
  userId : Nat
  productType : String
  productId : String
  amount : String
  price : ℤ
  createdAt : Nat
  completedAt : Option Nat
  status : String
deriving DecidableEq, Repr

/-- A row of the `balance_history` table. -/
structure HistoryRow where
  userId : Nat
  oldBalance : ℤ
  newBalance : ℤ
  changeAmount : ℤ
  transactionType : String
  adminId : Option Nat
deriving DecidableEq, Repr

/-- A row of the `admin_logs` table. -/
structure AdminLogRow where
  adminId : Nat
  action : String
  details : String
  targetUserId : Option Nat
deriving DecidableEq, Repr

/-- The persistent state: the five tables, the AUTOINCREMENT counter of
`orders.order_id`, and the wall clock used for `CURRENT_TIMESTAMP`. -/
structure DBState where
  users : List UserRow
  transactions : List TxRow
  orders : List OrderRow
  history : List HistoryRow
  adminLogs : List AdminLogRow
  nextOrderId : Nat
  now : Nat
deriving DecidableEq, Repr

/-- `SELECT balance FROM users WHERE user_id = ?` + `fetchone`, returning
`Decimal(0)` when no row exists (`get_user_balance`). -/
def get_user_balance (s : DBState) (userId : Nat) : ℤ :=
  match s.users.find? (fun u => u.userId == userId) with
  | some u => u.balance
  | none => 0

/-- `SELECT * FROM transactions WHERE tx_id = ?` + `fetchone`
(`get_transaction`). -/
def get_transaction (s : DBState) (txId : String) : Option TxRow :=
  s.transactions.find? (fun t => t.txId == txId)

/-- `SELECT * FROM orders WHERE order_id = ?` + `fetchone` (`get_order`). -/
def get_order (s : DBState) (orderId : Nat) : Option OrderRow :=
  s.orders.find? (fun o => o.orderId == orderId)

/-- `update_user_balance(user_id, amount)` (`database.py` lines 503-532):
a single conditional write
`UPDATE users SET balance = balance + ? WHERE user_id = ? AND balance + ? >= 0`;
commits and returns `True` when `rowcount > 0`, otherwise rolls back and
returns `False`. -/
def update_user_balance (s : DBState) (userId : Nat) (amount : ℤ) :
    Bool × DBState :=
  if s.users.any (fun u =>
      u.userId == userId && decide (0 ≤ u.balance + amount)) then
    (true, { s with users := s.users.map (fun u =>
      if u.userId == userId && decide (0 ≤ u.balance + amount) then
        { u with balance := u.balance + amount }
      else u) })
  else
    (false, s)

/-- `modify_user_balance(user_id, amount, admin_id)` (`database.py` lines
342-397): read the current balance, refuse a missing user or a negative
result, then write the new balance, append a `balance_history` row and an
`admin_logs` row, all inside one transaction. -/
def modify_user_balance (s : DBState) (userId : Nat) (amount : ℤ)
    (adminId : Nat) : Bool × DBState :=
  match s.users.find? (fun u => u.userId == userId) with
  | none => (false, s)
  | some row =>
    let currentBalance := row.balance
    let newBalance := currentBalance + amount
    if newBalance < 0 then
      (false, s)
    else
      (true, { s with
        users := s.users.map (fun u =>
          if u.userId == userId then { u with balance := newBalance } else u),
        history := s.history ++ [{
          userId := userId, oldBalance := currentBalance,
          newBalance := newBalance, changeAmount := amount,
          transactionType := if 0 < amount then "credit" else "debit",
          adminId := some adminId }],
        adminLogs := s.adminLogs ++ [{
          adminId := adminId, action := "modify_balance",
          details := "Modified balance", targetUserId := some userId }] })

/-- `create_order(user_id, product_type, product_id, game_id, price)`
(`database.py` lines 534-575): insert a `pending` order row (the CHECK
constraint restricts `product_type` to `game`/`app`) and return the
autoincremented `order_id` from the `RETURNING` clause. -/
def create_order (s : DBState) (userId : Nat) (productType : String)
    (productId : String) (gameId : String) (price : ℤ) :
    Option Nat × DBState :=
  if productType == "game" || productType == "app" then
    (some s.nextOrderId, { s with
      orders := s.orders ++ [{
        orderId := s.nextOrderId, userId := userId,
        productType := productType, productId := productId,
        amount := gameId, price := price, createdAt := s.now,
        completedAt := none, status := "pending" }],
      nextOrderId := s.nextOrderId + 1 })
  else
    (none, s)

/-- The `**kwargs` of `create_transaction`.  An outer `none` means the key
is absent from the call (so `kwargs.get(key, default)` yields the default);
`some none` means the key is present but bound to Python `None`, which
`.get` returns as-is. -/
structure TxKwargs where
  originalAmount : Option (Option ℤ)
  originalCurrency : Option (Option String)
  exchangeRate : Option ℤ
deriving DecidableEq, Repr

/-- `create_transaction(tx_id, user_id, amount, payment_method, ...)`
(`database.py` lines 577-622): insert a `pending` deposit row; the
`tx_id` PRIMARY KEY makes a duplicate id raise, which the handler turns
into a rollback and `False`.  Defaults when a kwarg key is absent:
`original_amount` falls back to the settlement `amount`,
`original_currency` to `SYP`, `exchange_rate` to `1`. -/
def create_transaction (s : DBState) (txId : String) (userId : Nat)
    (amount : ℤ) (paymentMethod : String) (paymentSubtype : Option String)
    (paymentNumber : Option String) (kwargs : TxKwargs) : Bool × DBState :=
  if s.transactions.any (fun t => t.txId == txId) then
    (false, s)
  else
    (true, { s with transactions := s.transactions ++ [{
      txId := txId, userId := userId, amount := amount,
      txType := "deposit", paymentMethod := paymentMethod,
      paymentSubtype := paymentSubtype, paymentNumber := paymentNumber,
      originalAmount := match kwargs.originalAmount with
        | none => some amount
        | some v => v,
      originalCurrency := match kwargs.originalCurrency with
        | none => some "SYP"
        | some v => v,
      exchangeRate := kwargs.exchangeRate.getD 1,
      createdAt := s.now, completedAt := none, status := "pending",
      rejectReason := none, adminId := none }] })

/-- `confirm_transaction(tx_id, admin_id)` (`database.py` lines 640-690):
fetch the row (no status filter), unconditionally set it `completed`,
unconditionally add its amount to the user's balance, and append an
`admin_logs` row.  No `balance_history` row is written.  The only abort
paths are a missing `tx_id` and the `CHECK (balance >= 0)` raise. -/
def confirm_transaction (s : DBState) (txId : String) (adminId : Nat) :
    Bool × DBState :=
  match s.transactions.find? (fun t => t.txId == txId) with
  | none => (false, s)
  | some row =>
    let userId := row.userId
    let amount := row.amount
    if s.users.any (fun u => u.userId == userId &&
        decide (u.balance + amount < 0)) then
      (false, s)
    else
      (true, { s with
        transactions := s.transactions.map (fun t =>
          if t.txId == txId then
            { t with status := "completed", completedAt := some s.now,
                     adminId := some adminId }
          else t),
        users := s.users.map (fun u =>
          if u.userId == userId then { u with balance := u.balance + amount }
          else u),
        adminLogs := s.adminLogs ++ [{
          adminId := adminId, action := "confirm_transaction",
          details := "Confirmed transaction", targetUserId := some userId }] })

/-- `reject_transaction(tx_id, admin_id, reason)` (`database.py` lines
692-742): fetch the row (no status filter), set it `rejected` with the
reason, then run the "Refund user balance" update, which unconditionally
adds the transaction amount to the user's balance, and append an
`admin_logs` row.  No `balance_history` row is written. -/
def reject_transaction (s : DBState) (txId : String) (adminId : Nat)
    (reason : String) : Bool × DBState :=
  match s.transactions.find? (fun t => t.txId == txId) with
  | none => (false, s)
  | some row =>
    let userId := row.userId
    let amount := row.amount
    if s.users.any (fun u => u.userId == userId &&
        decide (u.balance + amount < 0)) then
      (false, s)
    else
      (true, { s with
        transactions := s.transactions.map (fun t =>
          if t.txId == txId then
            { t with status := "rejected", rejectReason := some reason,
                     completedAt := some s.now, adminId := some adminId }
          else t),
        users := s.users.map (fun u =>
          if u.userId == userId then { u with balance := u.balance + amount }
          else u),
        adminLogs := s.adminLogs ++ [{
          adminId := adminId, action := "reject_transaction",
          details := "Rejected transaction", targetUserId := some userId }] })

/-- `update_order_status(order_id, status, admin_id)` (`database.py` lines
768-800): unconditionally `UPDATE orders SET status = ?, completed_at =
CURRENT_TIMESTAMP WHERE order_id = ?` (the CHECK constraint restricts the
new status to the four known values; `rowcount` is never inspected), then
append an `admin_logs` row. -/
def update_order_status (s : DBState) (orderId : Nat) (status : String)
    (adminId : Nat) : Bool × DBState :=
  if status == "pending" || status == "completed" ||
      status == "rejected" || status == "expired" then
    (true, { s with
      orders := s.orders.map (fun o =>
        if o.orderId == orderId then
          { o with status := status, completedAt := some s.now }
        else o),
      adminLogs := s.adminLogs ++ [{
        adminId := adminId, action := "update_order_status",
        details := "Updated order status", targetUserId := none }] })
  else
    (false, s)

/-- `reject_order(order_id, admin_id)` (`database.py` lines 802-851): fetch
the row (no status filter), set it `rejected`, add the price back to the
user's balance, and append an `admin_logs` row.  No `balance_history` row
is written. -/
def reject_order (s : DBState) (orderId : Nat) (adminId : Nat) :
    Bool × DBState :=
  match s.orders.find? (fun o => o.orderId == orderId) with
  | none => (false, s)
  | some row =>
    let userId := row.userId
    let price := row.price
    if s.users.any (fun u => u.userId == userId &&
        decide (u.balance + price < 0)) then
      (false, s)
    else
      (true, { s with
        orders := s.orders.map (fun o =>
          if o.orderId == orderId then
            { o with status := "rejected", completedAt := some s.now }
          else o),
        users := s.users.map (fun u =>
          if u.userId == userId then { u with balance := u.balance + price }
          else u),
        adminLogs := s.adminLogs ++ [{
          adminId := adminId, action := "reject_order",
          details := "Rejected order", targetUserId := some userId }] })

/-- `cleanup_expired_transactions(expiry_time)` (`database.py` lines
853-881): `DELETE FROM transactions WHERE status = 'pending' AND
created_at < ?`, returning the number of deleted rows.  The rows are
removed from the store, not transitioned to `expired`. -/
def cleanup_expired_transactions (s : DBState) (expiry : Nat) :
    Nat × DBState :=
  let doomed : TxRow → Bool := fun t =>
    t.status == "pending" && decide (t.createdAt < expiry)
  (s.transactions.countP doomed,
   { s with transactions := s.transactions.filter (fun t => !(doomed t)) })

/-- Outcome of an admin-side handler in `recharge.py` / `purchase.py`:
the four user-visible branches of `confirm_payment`, `confirm_order` and
`reject_order` (chat messaging aside). -/
inductive HandlerResult
  | notFound
  | alreadyProcessed
  | opFailed
  | done
deriving DecidableEq, Repr

/-- `RechargeManager.confirm_payment` (`recharge.py` lines 371-462), the
database-relevant core: `get_transaction`; missing id aborts; a status
other than `pending` aborts with the "already confirmed or cancelled"
message; otherwise call `confirm_transaction`.  The status check is a
separate read issued before (not inside) the atomic transaction of
`confirm_transaction`. -/
def confirm_payment (s : DBState) (txId : String) (adminId : Nat) :
    HandlerResult × DBState :=
  match get_transaction s txId with
  | none => (.notFound, s)
  | some tx =>
    if tx.status != "pending" then
      (.alreadyProcessed, s)
    else
      match confirm_transaction s txId adminId with
      | (false, s') => (.opFailed, s')
      | (true, s') => (.done, s')

/-- `RechargeManager.handle_reject_reason` (`recharge.py` lines 481-544),
the database-relevant core: it calls `reject_transaction` directly,
without any status pre-check. -/
def handle_reject_reason (s : DBState) (txId : String) (adminId : Nat)
    (reason : String) : Bool × DBState :=
  reject_transaction s txId adminId reason

/-- `PurchaseManager.confirm_order` (`purchase.py` lines 275-346), the
database-relevant core: `get_order`; missing id aborts; a status other
than `pending` aborts with the "already processed" message; otherwise call
`update_order_status(order_id, 'completed', admin)`. -/
def confirm_order (s : DBState) (orderId : Nat) (adminId : Nat) :
    HandlerResult × DBState :=
  match get_order s orderId with
  | none => (.notFound, s)
  | some o =>
    if o.status != "pending" then
      (.alreadyProcessed, s)
    else
      match update_order_status s orderId "completed" adminId with
      | (false, s') => (.opFailed, s')
      | (true, s') => (.done, s')

/-- `PurchaseManager.reject_order` (`purchase.py` lines 348-420), the
database-relevant core: `get_order`; missing id aborts; a status other
than `pending` aborts; otherwise call the database `reject_order`.  The
status check is a separate read issued before the atomic transaction of
the database operation. -/
def reject_order_handler (s : DBState) (orderId : Nat) (adminId : Nat) :
    HandlerResult × DBState :=
  match get_order s orderId with
  | none => (.notFound, s)
  | some o =>
    if o.status != "pending" then
      (.alreadyProcessed, s)
    else
      match reject_order s orderId adminId with
      | (false, s') => (.opFailed, s')
      | (true, s') => (.done, s')

/-- One storage mutation issued by `_process_purchase`, in program order:
the order-row insertion of `create_order`, or the conditional balance
write of `update_user_balance`. -/
inductive PurchaseEvent
  | orderInserted (orderId : Nat)
  | balanceUpdated (userId : Nat) (amount : ℤ)
deriving DecidableEq, Repr

/-- Outcome of `_process_purchase`. -/
inductive PurchaseResult
  | insufficientBalance
  | orderCreateError
  | debitError
  | success (orderId : Nat)
deriving DecidableEq, Repr

/-- `PurchaseManager._process_purchase` (`purchase.py` lines 176-273), the
database-relevant core: read the balance with `get_user_balance` and stop
when it is below the price; otherwise insert the order row with
`create_order`; only then debit the price with
`update_user_balance(user_id, -price)`.  Each database call runs in its
own storage transaction; a debit failure is reported but the already
committed order row stays.  The third component lists the storage
mutations in the order the code issues them. -/
def process_purchase (s : DBState) (userId : Nat) (productType : String)
    (productId : String) (gameId : String) (price : ℤ) :
    PurchaseResult × DBState × List PurchaseEvent :=
  if get_user_balance s userId < price then
    (.insufficientBalance, s, [])
  else
    match create_order s userId productType productId gameId price with
    | (none, s₁) => (.orderCreateError, s₁, [])
    | (some orderId, s₁) =>
      match update_user_balance s₁ userId (-price) with
      | (false, s₂) => (.debitError, s₂, [.orderInserted orderId])
      | (true, s₂) =>
        (.success orderId, s₂,
         [.orderInserted orderId, .balanceUpdated userId (-price)])

/-- The `context.user_data` assembled by the recharge conversation by the
time `handle_txid` runs: the settlement amount in SYP, the payment method,
and — always present, possibly `None` — the original foreign amount and
currency (`recharge.py`, `handle_amount`). -/
structure PaymentData where
  paymentMethod : String
  amount : ℤ
  originalAmount : Option ℤ
  originalCurrency : Option String
deriving DecidableEq, Repr

/-- The crypto branch of `RechargeManager.handle_amount` (`recharge.py`
lines 242-256): the settlement amount is `amount * rate` with the current
`USDT_RATE`/`USD_RATE`, and `original_amount`/`original_currency` record
the foreign-currency input.  No exchange-rate field is stored in the
conversation data. -/
def handle_amount_crypto (amount : ℤ) (currency : String)
    (usdtRate usdRate : ℤ) : PaymentData :=
  let rate := if currency == "USDT" then usdtRate else usdRate
  { paymentMethod := "crypto", amount := amount * rate,
    originalAmount := some amount, originalCurrency := some currency }

/-- The syriatel/mtn branch of `handle_amount` (`recharge.py` lines
279-284): the entered SYP amount is the settlement amount and no original
amount or currency is recorded (the keys stay absent from `user_data`,
so `handle_txid` passes `None` for both). -/
def handle_amount_syp (amount : ℤ) (method : String) : PaymentData :=
  { paymentMethod := method, amount := amount,
    originalAmount := none, originalCurrency := none }

/-- `RechargeManager.handle_txid` (`recharge.py` lines 297-369), the
database-relevant core: call `create_transaction` with
`original_amount`/`original_currency` keys always present (their values
may be Python `None`) and with no `exchange_rate` key at all. -/
def handle_txid (s : DBState) (txId : String) (userId : Nat)
    (paymentData : PaymentData) : Bool × DBState :=
  create_transaction s txId userId paymentData.amount
    paymentData.paymentMethod none none
    { originalAmount := some paymentData.originalAmount,
      originalCurrency := some paymentData.originalCurrency,
      exchangeRate := none }

/-- One call of the spec's Account Ledger interface, expressed through the
source operations it maps to: `credit`/`debit` are `update_user_balance`
with a positive/negated amount (the paths used by deposit crediting and
purchase debiting), `adjust` is the admin path `modify_user_balance`. -/
inductive LedgerOp
  | credit (userId : Nat) (amount : ℤ)
  | debit (userId : Nat) (amount : ℤ)
  | adjust (userId : Nat) (amount : ℤ) (adminId : Nat)
deriving DecidableEq, Repr

/-- Apply one ledger call, keeping only the resulting state (a failed call
leaves the state unchanged, as every operation rolls back). -/
def applyLedgerOp (s : DBState) : LedgerOp → DBState
  | .credit userId amount => (update_user_balance s userId amount).2
  | .debit userId amount => (update_user_balance s userId (-amount)).2
  | .adjust userId amount adminId =>
      (modify_user_balance s userId amount adminId).2

/-- Apply a finite sequence of ledger calls in order. -/
def applyLedgerOps (s : DBState) (ops : List LedgerOp) : DBState :=
  ops.foldl applyLedgerOp s

/-- Every stored balance is non-negative. -/
def BalancesNonneg (s : DBState) : Prop :=
  ∀ u ∈ s.users, 0 ≤ u.balance

instance (s : DBState) : Decidable (BalancesNonneg s) :=
  List.decidableBAll _ s.users

/-- No two distinct user rows share a `user_id` (the PRIMARY KEY of the
`users` table). -/
def UsersUnique (s : DBState) : Prop :=
  ∀ u ∈ s.users, ∀ v ∈ s.users, u.userId = v.userId → u = v

instance (s : DBState) : Decidable (UsersUnique s) :=
  List.decidableBAll _ s.users

/-- No two distinct transaction rows share a `tx_id` (the PRIMARY KEY of
the `transactions` table). -/
def TxIdsUnique (s : DBState) : Prop :=
  ∀ t ∈ s.transactions, ∀ t' ∈ s.transactions, t.txId = t'.txId → t = t'

instance (s : DBState) : Decidable (TxIdsUnique s) :=
  List.decidableBAll _ s.transactions

/-- Sum of the `change_amount` column over a user's `balance_history`
rows: the replay of the audit trail from zero. -/
def history_sum (s : DBState) (userId : Nat) : ℤ :=
  (s.history.filter (fun h => h.userId == userId)).foldl
    (fun acc h => acc + h.changeAmount) 0

/-- Demo user: id 1, zero balance, active. -/
def demoUser : UserRow := { userId := 1, balance := 0, status := "active" }

/-- Demo deposit: pending, 100 SYP, owned by user 1, created at time 0. -/
def demoTx : TxRow :=
  { txId := "TX1", userId := 1, amount := 100, txType := "deposit",
    paymentMethod := "syriatel", paymentSubtype := none,
    paymentNumber := none, originalAmount := some 100,
    originalCurrency := some "SYP", exchangeRate := 1, createdAt := 0,
    completedAt := none, status := "pending", rejectReason := none,
    adminId := none }

/-- Demo state: one user with zero balance and one pending deposit. -/
def demoState : DBState :=
  { users := [demoUser], transactions := [demoTx], orders := [],
    history := [], adminLogs := [], nextOrderId := 1, now := 5 }

/-- Demo user with funds: id 1, balance 500. -/
def orderUser : UserRow := { userId := 1, balance := 500, status := "active" }

/-- Demo pending order: id 1, user 1, 9500 SYP game purchase. -/
def pendingOrder : OrderRow :=
  { orderId := 1, userId := 1, productType := "game", productId := "pubg",
    amount := "ID123", price := 9500, createdAt := 0, completedAt := none,
    status := "pending" }

/-- Demo state for the order-rejection claims: the 9500 SYP charge has
already been debited, leaving user 1 with 500. -/
def orderDemoState : DBState :=
  { users := [orderUser], transactions := [], orders := [pendingOrder],
    history := [], adminLogs := [], nextOrderId := 2, now := 7 }

/-- Demo buyer with 10000 SYP and no orders yet. -/
def purchaseDemoState : DBState :=
  { users := [{ userId := 1, balance := 10000, status := "active" }],
    transactions := [], orders := [], history := [], adminLogs := [],
    nextOrderId := 1, now := 3 }

/-- Demo completed order, for the terminal-state claims. -/
def terminalOrder : OrderRow :=
  { orderId := 1, userId := 1, productType := "game", productId := "pubg",
    amount := "ID123", price := 9500, createdAt := 0,
    completedAt := some 1, status := "completed" }

/-- Demo completed transaction, for the terminal-state claims. -/
def terminalTx : TxRow :=
  { txId := "TXC", userId := 1, amount := 100, txType := "deposit",
    paymentMethod := "mtn", paymentSubtype := none, paymentNumber := none,
    originalAmount := some 100, originalCurrency := some "SYP",
    exchangeRate := 1, createdAt := 0, completedAt := some 1,
    status := "completed", rejectReason := none, adminId := some 9 }

/-- Demo state in which both the order and the transaction are already in
the terminal state `completed`. -/
def terminalDemoState : DBState :=
  { users := [{ userId := 1, balance := 10, status := "active" }],
    transactions := [terminalTx], orders := [terminalOrder],
    history := [], adminLogs := [], nextOrderId := 2, now := 9 }

/-- Claim C1 (code bug): on the pending 100-SYP deposit of user 1 (balance
0), `reject_transaction` does set the status to `rejected` with the reason
recorded and does append an admin-log entry — but it also runs its
"Refund user balance" update, crediting the never-credited deposit amount:
the balance moves from 0 to 100 instead of staying unchanged. -/
theorem C1_reject_credits_balance :
    (reject_transaction demoState "TX1" 9 "invalid proof").1 = true ∧
    ((get_transaction (reject_transaction demoState "TX1" 9 "invalid proof").2
        "TX1").map TxRow.status = some "rejected") ∧
    ((get_transaction (reject_transaction demoState "TX1" 9 "invalid proof").2
        "TX1").map TxRow.rejectReason = some (some "invalid proof")) ∧
    ((reject_transaction demoState "TX1" 9 "invalid proof").2).adminLogs.length
      = demoState.adminLogs.length + 1 ∧
    get_user_balance demoState 1 = 0 ∧
    get_user_balance (reject_transaction demoState "TX1" 9 "invalid proof").2 1
      = 100 := by
  decide

/-- Claim C2, counterexample: `confirm_transaction` re-reads nothing —
called twice on the same (already completed) transaction it succeeds again
and credits the 100-SYP amount a second time, leaving balance 200. -/
theorem C2_counterexample :
    (confirm_transaction demoState "TX1" 9).1 = true ∧
    get_user_balance (confirm_transaction demoState "TX1" 9).2 1 = 100 ∧
    (get_transaction (confirm_transaction demoState "TX1" 9).2 "TX1").map
      TxRow.status = some "completed" ∧
    (confirm_transaction (confirm_transaction demoState "TX1" 9).2 "TX1" 8).1
      = true ∧
    get_user_balance
      (confirm_transaction (confirm_transaction demoState "TX1" 9).2
        "TX1" 8).2 1 = 200 := by
  decide

/-- Claim C4, counterexample: `reject_order` has no pending guard — called
twice on the same order it refunds the 9500-SYP charge twice, moving the
balance from 500 to 10000 and then to 19500. -/
theorem C4_counterexample :
    (reject_order orderDemoState 1 9).1 = true ∧
    get_user_balance (reject_order orderDemoState 1 9).2 1 = 10000 ∧
    (reject_order (reject_order orderDemoState 1 9).2 1 8).1 = true ∧
    get_user_balance (reject_order (reject_order orderDemoState 1 9).2 1 8).2 1
      = 19500 := by
  decide

/-- Claim C6 (code bug): confirming the pending 100-SYP deposit credits the
balance but appends no `balance_history` row, so replaying the history
deltas from 0 yields 0 while the balance is 100. -/
theorem C6_confirm_skips_history :
    (confirm_transaction demoState "TX1" 9).1 = true ∧
    get_user_balance (confirm_transaction demoState "TX1" 9).2 1 = 100 ∧
    history_sum (confirm_transaction demoState "TX1" 9).2 1 = 0 ∧
    history_sum (confirm_transaction demoState "TX1" 9).2 1 ≠
      get_user_balance (confirm_transaction demoState "TX1" 9).2 1 := by
  decide

/-- Claim C7, counterexample: sweeping with a cutoff later than the pending
transaction's creation time reports one affected record but deletes the
row outright — afterwards the transaction is gone from the store rather
than remaining in a terminal state. -/
theorem C7_counterexample :
    (cleanup_expired_transactions demoState 10).1 = 1 ∧
    get_transaction (cleanup_expired_transactions demoState 10).2 "TX1"
      = none ∧
    ((cleanup_expired_transactions demoState 10).2).transactions = [] := by
  decide

/-- Claim C8, counterexample: `update_order_status` overwrites any status
unconditionally, moving a `completed` (terminal) order back to `pending`;
and `reject_transaction` flips a `completed` (terminal) transaction to
`rejected` (crediting its amount yet again). -/
theorem C8_counterexample :
    (update_order_status terminalDemoState 1 "pending" 9).1 = true ∧
    (get_order (update_order_status terminalDemoState 1 "pending" 9).2 1).map
      OrderRow.status = some "pending" ∧
    (reject_transaction terminalDemoState "TXC" 9 "oops").1 = true ∧
    (get_transaction (reject_transaction terminalDemoState "TXC" 9 "oops").2
      "TXC").map TxRow.status = some "rejected" := by
  decide

/-- `find?` commutes with a map that does not change the predicate's
verdict on any element. -/
theorem find?_map_of_pred_eq {α : Type} (f : α → α) (p : α → Bool)
    (hf : ∀ a, p (f a) = p a) (l : List α) :
    (l.map f).find? p = (l.find? p).map f := by
  induction l with
  | nil => rfl
  | cons a t ih =>
    rw [List.map_cons, List.find?_cons, List.find?_cons, hf a]
    cases hpa : p a
    · simpa using ih
    · simp

/-- `any` is `false` when the predicate fails on every element. -/
theorem any_eq_false_of_forall {α : Type} {p : α → Bool} {l : List α}
    (h : ∀ a ∈ l, p a = false) : l.any p = false := by
  rw [← Bool.not_eq_true, List.any_eq_true]
  rintro ⟨a, ha, hpa⟩
  rw [h a ha] at hpa
  exact Bool.false_ne_true hpa

/-- Effect of the SQL balance-credit `UPDATE` on the row the ledger reads:
the first row matching the user id gains exactly `amount`. -/
theorem find?_credit_map (l : List UserRow) (uid : Nat) (amount : ℤ)
    (u : UserRow) (hu : l.find? (fun w => w.userId == uid) = some u) :
    (l.map (fun w => if w.userId == uid then
        { w with balance := w.balance + amount } else w)).find?
      (fun w => w.userId == uid)
      = some { u with balance := u.balance + amount } := by
  rw [find?_map_of_pred_eq]
  · rw [hu]
    have hpu := List.find?_some hu
    simp only [beq_iff_eq] at hpu
    simp [Option.map_some, hpu]
  · intro w
    by_cases h : w.userId = uid <;> simp [h]

/-- Effect of the `confirm_transaction` status `UPDATE` on the row
`get_transaction` reads. -/
theorem find?_complete_map (l : List TxRow) (txId : String) (now : Nat)
    (a : Nat) (tx : TxRow)
    (htx : l.find? (fun t => t.txId == txId) = some tx) :
    (l.map (fun t => if t.txId == txId then
        { t with status := "completed", completedAt := some now,
                 adminId := some a } else t)).find?
      (fun t => t.txId == txId)
      = some { tx with status := "completed", completedAt := some now,
                       adminId := some a } := by
  rw [find?_map_of_pred_eq]
  · rw [htx]
    have hpt := List.find?_some htx
    simp only [beq_iff_eq] at hpt
    simp [Option.map_some, hpt]
  · intro t
    by_cases h : t.txId = txId <;> simp [h]

/-- Effect of the `reject_order` status `UPDATE` on the row `get_order`
reads. -/
theorem find?_reject_order_map (l : List OrderRow) (orderId : Nat)
    (now : Nat) (o : OrderRow)
    (ho : l.find? (fun w => w.orderId == orderId) = some o) :
    (l.map (fun w => if w.orderId == orderId then
        { w with status := "rejected", completedAt := some now } else w)).find?
      (fun w => w.orderId == orderId)
      = some { o with status := "rejected", completedAt := some now } := by
  rw [find?_map_of_pred_eq]
  · rw [ho]
    have hpo := List.find?_some ho
    simp only [beq_iff_eq] at hpo
    simp [Option.map_some, hpo]
  · intro w
    by_cases h : w.orderId = orderId <;> simp [h]

/-- Explicit form of a successful `confirm_transaction`: when the id
resolves (to `tx`) and no balance CHECK fires, the call commits the status
flip, the credit and the admin-log append. -/
theorem confirm_transaction_eq (s : DBState) (txId : String) (a : Nat)
    (tx : TxRow)
    (hfind : s.transactions.find? (fun t => t.txId == txId) = some tx)
    (hguard : s.users.any (fun w => w.userId == tx.userId &&
      decide (w.balance + tx.amount < 0)) = false) :
    confirm_transaction s txId a = (true, { s with
      transactions := s.transactions.map (fun t =>
        if t.txId == txId then
          { t with status := "completed", completedAt := some s.now,
                   adminId := some a }
        else t),
      users := s.users.map (fun u =>
        if u.userId == tx.userId then
          { u with balance := u.balance + tx.amount }
        else u),
      adminLogs := s.adminLogs ++ [{
        adminId := a, action := "confirm_transaction",
        details := "Confirmed transaction",
        targetUserId := some tx.userId }] }) := by
  unfold confirm_transaction
  rw [hfind]
  simp [hguard]

/-- Explicit form of a successful `reject_order`: when the id resolves (to
`o`) and no balance CHECK fires, the call commits the status flip, the
refund credit and the admin-log append. -/
theorem reject_order_eq (s : DBState) (orderId : Nat) (a : Nat)
    (o : OrderRow)
    (hfind : s.orders.find? (fun w => w.orderId == orderId) = some o)
    (hguard : s.users.any (fun w => w.userId == o.userId &&
      decide (w.balance + o.price < 0)) = false) :
    reject_order s orderId a = (true, { s with
      orders := s.orders.map (fun w =>
        if w.orderId == orderId then
          { w with status := "rejected", completedAt := some s.now }
        else w),
      users := s.users.map (fun u =>
        if u.userId == o.userId then
          { u with balance := u.balance + o.price }
        else u),
      adminLogs := s.adminLogs ++ [{
        adminId := a, action := "reject_order",
        details := "Rejected order", targetUserId := some o.userId }] }) := by
  unfold reject_order
  rw [hfind]
  simp [hguard]

/-- Claim C2, amended: sequential double-confirm credits once only thanks
to the handler: `confirm_payment` re-reads the status in a separate read
before the (unguarded) atomic `confirm_transaction`, so its first call on
a pending transaction succeeds and credits the settlement amount, and its
second call stops at `alreadyProcessed` without touching the state.  The
database operation itself aborts only on a missing id, not on a
non-pending status. -/
theorem C2_handler_level_idempotent (s : DBState) (txId : String)
    (tx : TxRow) (u : UserRow) (a₁ a₂ : Nat)
    (htx : get_transaction s txId = some tx)
    (hpend : tx.status = "pending")
    (hu : s.users.find? (fun w => w.userId == tx.userId) = some u)
    (hnn : ∀ w ∈ s.users, w.userId = tx.userId → 0 ≤ w.balance + tx.amount) :
    (confirm_payment s txId a₁).1 = .done ∧
    get_user_balance (confirm_payment s txId a₁).2 tx.userId
      = u.balance + tx.amount ∧
    confirm_payment (confirm_payment s txId a₁).2 txId a₂
      = (.alreadyProcessed, (confirm_payment s txId a₁).2) := by
  have htx' : s.transactions.find? (fun t => t.txId == txId) = some tx := htx
  have hguard : s.users.any (fun w => w.userId == tx.userId &&
      decide (w.balance + tx.amount < 0)) = false := by
    apply any_eq_false_of_forall
    intro w hw
    by_cases hid : w.userId = tx.userId
    · have hb := hnn w hw hid
      have hdec : decide (w.balance + tx.amount < 0) = false :=
        decide_eq_false (not_lt.2 hb)
      simp [hid, hdec]
    · simp [beq_iff_eq, hid]
  have hct := confirm_transaction_eq s txId a₁ tx htx' hguard
  have hcp : confirm_payment s txId a₁
      = (.done, (confirm_transaction s txId a₁).2) := by
    unfold confirm_payment
    rw [htx]
    simp [hpend, hct]
  refine ⟨by rw [hcp], ?_, ?_⟩
  · rw [hcp, hct]
    unfold get_user_balance
    dsimp only
    rw [find?_credit_map s.users tx.userId tx.amount u hu]
  · rw [hcp, hct]
    unfold confirm_payment get_transaction
    dsimp only
    rw [find?_complete_map s.transactions txId s.now a₁ tx htx']
    simp

/-- Claim C2, witness: the spec's own scenario — a pending 100-SYP deposit
confirmed twice through the admin handler credits once and then reports
"already processed". -/
theorem C2_witness :
    (confirm_payment demoState "TX1" 9).1 = .done ∧
    get_user_balance (confirm_payment demoState "TX1" 9).2 demoTx.userId
      = demoUser.balance + demoTx.amount ∧
    confirm_payment (confirm_payment demoState "TX1" 9).2 "TX1" 8
      = (.alreadyProcessed, (confirm_payment demoState "TX1" 9).2) :=
  C2_handler_level_idempotent demoState "TX1" demoTx demoUser 9 8
    (by decide) (by decide) (by decide) (by decide)

/-- Claim C4, amended: sequential double-reject refunds once only thanks
to the handler: `reject_order_handler` re-reads the status in a separate
read before the (unguarded) atomic `reject_order`, so its first call on a
pending order refunds the charge and its second call stops at
`alreadyProcessed` without touching the state.  The database operation
itself aborts only on a missing id, not on a non-pending status. -/
theorem C4_handler_level_single_refund (s : DBState) (orderId : Nat)
    (o : OrderRow) (u : UserRow) (a₁ a₂ : Nat)
    (ho : get_order s orderId = some o)
    (hpend : o.status = "pending")
    (hu : s.users.find? (fun w => w.userId == o.userId) = some u)
    (hnn : ∀ w ∈ s.users, w.userId = o.userId → 0 ≤ w.balance + o.price) :
    (reject_order_handler s orderId a₁).1 = .done ∧
    get_user_balance (reject_order_handler s orderId a₁).2 o.userId
      = u.balance + o.price ∧
    reject_order_handler (reject_order_handler s orderId a₁).2 orderId a₂
      = (.alreadyProcessed, (reject_order_handler s orderId a₁).2) := by
  have ho' : s.orders.find? (fun w => w.orderId == orderId) = some o := ho
  have hguard : s.users.any (fun w => w.userId == o.userId &&
      decide (w.balance + o.price < 0)) = false := by
    apply any_eq_false_of_forall
    intro w hw
    by_cases hid : w.userId = o.userId
    · have hb := hnn w hw hid
      have hdec : decide (w.balance + o.price < 0) = false :=
        decide_eq_false (not_lt.2 hb)
      simp [hid, hdec]
    · simp [beq_iff_eq, hid]
  have hro := reject_order_eq s orderId a₁ o ho' hguard
  have hrh : reject_order_handler s orderId a₁
      = (.done, (reject_order s orderId a₁).2) := by
    unfold reject_order_handler
    rw [ho]
    simp [hpend, hro]
  refine ⟨by rw [hrh], ?_, ?_⟩
  · rw [hrh, hro]
    unfold get_user_balance
    dsimp only
    rw [find?_credit_map s.users o.userId o.price u hu]
  · rw [hrh, hro]
    unfold reject_order_handler get_order
    dsimp only
    rw [find?_reject_order_map s.orders orderId s.now o ho']
    simp

/-- Claim C4, witness: the spec's own scenario — a pending 9500-SYP order
rejected twice through the admin handler refunds once (500 → 10000) and
then reports "already processed". -/
theorem C4_witness :
    (reject_order_handler orderDemoState 1 9).1 = .done ∧
    get_user_balance (reject_order_handler orderDemoState 1 9).2
      pendingOrder.userId = orderUser.balance + pendingOrder.price ∧
    reject_order_handler (reject_order_handler orderDemoState 1 9).2 1 8
      = (.alreadyProcessed, (reject_order_handler orderDemoState 1 9).2) :=
  C4_handler_level_single_refund orderDemoState 1 pendingOrder orderUser 9 8
    (by decide) (by decide) (by decide) (by decide)

/-- Is the event an order-row insertion? -/
def is_insert : PurchaseEvent → Bool
  | .orderInserted _ => true
  | .balanceUpdated _ _ => false

/-- Is the event a balance write? -/
def is_balance_write : PurchaseEvent → Bool
  | .orderInserted _ => false
  | .balanceUpdated _ _ => true

/-- Whether some balance write occurs strictly before some order-row
insertion in a purchase trace. -/
def debit_precedes_insert : List PurchaseEvent → Bool
  | [] => false
  | e :: rest =>
    (is_balance_write e && rest.any is_insert) || debit_precedes_insert rest

/-- Claim C3, counterexample: the spec's own scenario (balance 10000,
price 9500) — the purchase succeeds, but its storage trace inserts the
`pending` order row first and debits afterwards, in two separate storage
transactions; no debit precedes the insertion, refuting the claimed
"debit atomically with, and before, the insertion". -/
theorem C3_counterexample :
    (process_purchase purchaseDemoState 1 "game" "pubg" "ID123" 9500).1
      = .success 1 ∧
    (process_purchase purchaseDemoState 1 "game" "pubg" "ID123" 9500).2.2
      = [.orderInserted 1, .balanceUpdated 1 (-9500)] ∧
    get_user_balance
      (process_purchase purchaseDemoState 1 "game" "pubg" "ID123" 9500).2.1 1
      = 500 ∧
    debit_precedes_insert
      (process_purchase purchaseDemoState 1 "game" "pubg" "ID123" 9500).2.2
      = false := by
  decide

/-- Claim C3, amended: `_process_purchase` checks the balance up front —
if it is below the price it stops with no order and no state change — and
otherwise inserts the `pending` order row first and only afterwards issues
the debit, each in its own storage transaction: in every trace the first
storage mutation is the order insertion and no debit ever precedes it. -/
theorem C3_insert_then_debit (s : DBState) (userId : Nat)
    (productType productId gameId : String) (price : ℤ)
    (hpt : productType = "game" ∨ productType = "app") :
    (get_user_balance s userId < price →
      process_purchase s userId productType productId gameId price
        = (.insufficientBalance, s, [])) ∧
    (price ≤ get_user_balance s userId →
      (process_purchase s userId productType productId gameId price).2.2.head?
        = some (.orderInserted s.nextOrderId) ∧
      debit_precedes_insert
        (process_purchase s userId productType productId gameId price).2.2
        = false) := by
  constructor
  · intro hlt
    unfold process_purchase
    rw [if_pos hlt]
  · intro hge
    have hnlt : ¬ get_user_balance s userId < price := not_lt.2 hge
    have hco : (productType == "game" || productType == "app") = true := by
      rcases hpt with h | h <;> simp [h]
    unfold process_purchase create_order
    rw [if_neg hnlt, if_pos hco]
    rcases hub : update_user_balance { s with
        orders := s.orders ++ [{
          orderId := s.nextOrderId, userId := userId,
          productType := productType, productId := productId,
          amount := gameId, price := price, createdAt := s.now,
          completedAt := none, status := "pending" }],
        nextOrderId := s.nextOrderId + 1 } userId (-price) with ⟨b, s₂⟩
    cases b <;>
      simp [hub, debit_precedes_insert, is_balance_write, is_insert]

/-- The conditional write of `update_user_balance` preserves
non-negativity of every stored balance: a row is only rewritten when the
`WHERE ... balance + ? >= 0` clause matched it. -/
theorem update_user_balance_nonneg (s : DBState) (userId : Nat)
    (amount : ℤ) (h : BalancesNonneg s) :
    BalancesNonneg (update_user_balance s userId amount).2 := by
  unfold update_user_balance
  split
  · intro u hu
    simp only [List.mem_map] at hu
    obtain ⟨w, hw, rfl⟩ := hu
    by_cases hc : (w.userId == userId && decide (0 ≤ w.balance + amount))
      = true
    · rw [if_pos hc]
      rw [Bool.and_eq_true] at hc
      exact of_decide_eq_true hc.2
    · rw [if_neg hc]
      exact h w hw
  · exact h

/-- The read-check-write of `modify_user_balance` preserves non-negativity
of every stored balance: it refuses to commit a negative result. -/
theorem modify_user_balance_nonneg (s : DBState) (userId : Nat)
    (amount : ℤ) (adminId : Nat) (h : BalancesNonneg s) :
    BalancesNonneg (modify_user_balance s userId amount adminId).2 := by
  unfold modify_user_balance
  cases hfind : s.users.find? (fun u => u.userId == userId) with
  | none => exact h
  | some row =>
    dsimp only
    split
    · exact h
    · rename_i hnneg
      intro u hu
      simp only [List.mem_map] at hu
      obtain ⟨w, hw, rfl⟩ := hu
      by_cases hc : (w.userId == userId) = true
      · rw [if_pos hc]
        exact not_lt.1 hnneg
      · rw [if_neg hc]
        exact h w hw

/-- Claim C5 (confirmed): starting from any state whose balances are all
non-negative, every finite sequence of ledger credit/debit/adjust calls —
`update_user_balance` with a positive or negated amount, and
`modify_user_balance` — leaves every account balance at 0 or above.  The
conditional `WHERE balance + ? >= 0` write and the pre-commit
`new_balance < 0` check enforce the invariant at each step. -/
theorem C5_balances_nonneg (s : DBState) (ops : List LedgerOp)
    (h : BalancesNonneg s) : BalancesNonneg (applyLedgerOps s ops) := by
  induction ops generalizing s with
  | nil => exact h
  | cons op rest ih =>
    have hstep : BalancesNonneg (applyLedgerOp s op) := by
      cases op with
      | credit userId amount => exact update_user_balance_nonneg s userId amount h
      | debit userId amount =>
        exact update_user_balance_nonneg s userId (-amount) h
      | adjust userId amount adminId =>
        exact modify_user_balance_nonneg s userId amount adminId h
    exact ih (applyLedgerOp s op) hstep

/-- Claim C5, witness: a concrete mixed sequence — credit 100, debit 150
(fails), adjust by -30, debit 70 — keeps all balances non-negative. -/
theorem C5_witness :
    BalancesNonneg demoState ∧
    BalancesNonneg (applyLedgerOps demoState
      [.credit 1 100, .debit 1 150, .adjust 1 (-30) 9, .debit 1 70]) :=
  ⟨by decide, C5_balances_nonneg demoState
    [.credit 1 100, .debit 1 150, .adjust 1 (-30) 9, .debit 1 70]
    (by decide)⟩

/-- Claim C3, witness: with balance 10000 and price 10500 the upfront
check fails, no order is created and the state is unchanged. -/
theorem C3_witness :
    process_purchase purchaseDemoState 1 "game" "pubg" "ID123" 10500
      = (.insufficientBalance, purchaseDemoState, []) :=
  (C3_insert_then_debit purchaseDemoState 1 "game" "pubg" "ID123" 10500
    (Or.inl rfl)).1 (by decide)

/-- Claim C7, amended: the sweep deletes (rather than marks) every pending
transaction created before the cutoff, returns the number of deleted rows,
leaves every other transaction untouched and changes no account balance;
afterwards no stored pending transaction predates the cutoff. -/
theorem C7_sweep_deletes (s : DBState) (expiry : Nat) :
    (cleanup_expired_transactions s expiry).1
      = s.transactions.countP (fun t =>
          t.status == "pending" && decide (t.createdAt < expiry)) ∧
    (cleanup_expired_transactions s expiry).2.transactions
      = s.transactions.filter (fun t =>
          !(t.status == "pending" && decide (t.createdAt < expiry))) ∧
    (∀ userId, get_user_balance (cleanup_expired_transactions s expiry).2
      userId = get_user_balance s userId) ∧
    (∀ t ∈ (cleanup_expired_transactions s expiry).2.transactions,
      t.status = "pending" → expiry ≤ t.createdAt) := by
  refine ⟨rfl, rfl, fun userId => rfl, ?_⟩
  intro t ht hp
  unfold cleanup_expired_transactions at ht
  dsimp only at ht
  rw [List.mem_filter] at ht
  have h2 : ¬t.status = "pending" ∨ expiry ≤ t.createdAt := by
    simpa using ht.2
  rcases h2 with h | h
  · exact absurd hp h
  · exact h

/-- Claim C7, witness: sweeping the demo state at cutoff 10 removes the
pending transaction but leaves user 1's balance untouched. -/
theorem C7_witness :
    get_user_balance (cleanup_expired_transactions demoState 10).2 1
      = get_user_balance demoState 1 :=
  (C7_sweep_deletes demoState 10).2.2.1 1

/-- Claim C8, amended: terminal statuses are final only through the admin
handlers — `confirm_order`, the order-rejection handler and
`confirm_payment` each re-read the record in a separate query and stop at
`alreadyProcessed` when it is not `pending`, leaving the state unchanged;
the raw primitives `update_order_status`, `confirm_transaction` and
`reject_transaction` overwrite terminal statuses unconditionally. -/
theorem C8_handlers_respect_terminal (s : DBState) (orderId : Nat)
    (txId : String) (a₁ a₂ a₃ : Nat) (o : OrderRow) (tx : TxRow)
    (ho : get_order s orderId = some o) (hos : o.status ≠ "pending")
    (ht : get_transaction s txId = some tx)
    (hts : tx.status ≠ "pending") :
    confirm_order s orderId a₁ = (.alreadyProcessed, s) ∧
    reject_order_handler s orderId a₂ = (.alreadyProcessed, s) ∧
    confirm_payment s txId a₃ = (.alreadyProcessed, s) := by
  unfold confirm_order reject_order_handler confirm_payment
  rw [ho, ht]
  simp [bne_iff_ne, hos, hts]

/-- Claim C8, witness: the demo state's completed order and completed
transaction are left untouched by all three admin handlers. -/
theorem C8_witness :
    confirm_order terminalDemoState 1 9
      = (.alreadyProcessed, terminalDemoState) ∧
    reject_order_handler terminalDemoState 1 8
      = (.alreadyProcessed, terminalDemoState) ∧
    confirm_payment terminalDemoState "TXC" 7
      = (.alreadyProcessed, terminalDemoState) :=
  C8_handlers_respect_terminal terminalDemoState 1 "TXC" 9 8 7
    terminalOrder terminalTx (by decide) (by decide) (by decide) (by decide)

/-- Claim C9 (confirmed): when the stored balance of `userId` is `b` and
`b < amount`, the debit `update_user_balance(userId, -amount)` matches no
row in its conditional `WHERE balance + ? >= 0` write, so it rolls back,
returns `False`, and the state — in particular the balance — is
unchanged.  This also covers a missing account, whose read-back balance is
0. -/
theorem C9_debit_insufficient (s : DBState) (userId : Nat) (b amount : ℤ)
    (huniq : UsersUnique s)
    (hb : get_user_balance s userId = b) (hlt : b < amount) :
    update_user_balance s userId (-amount) = (false, s) ∧
    get_user_balance s userId = b := by
  have hany : s.users.any (fun u => u.userId == userId &&
      decide (0 ≤ u.balance + -amount)) = false := by
    apply any_eq_false_of_forall
    intro w hw
    by_cases hid : w.userId = userId
    · have hsome : (s.users.find? (fun v => v.userId == userId)).isSome := by
        rw [List.find?_isSome]
        exact ⟨w, hw, by simp [hid]⟩
      obtain ⟨v, hv⟩ := Option.isSome_iff_exists.1 hsome
      have hvmem := List.mem_of_find?_eq_some hv
      have hvpred := List.find?_some hv
      simp only [beq_iff_eq] at hvpred
      have hveq : v = w := huniq v hvmem w hw (by rw [hvpred, hid])
      have hbal : w.balance = b := by
        unfold get_user_balance at hb
        rw [hv] at hb
        simp at hb
        rw [← hveq]
        exact hb
      have hneg : ¬ (0 ≤ w.balance + -amount) := by
        rw [hbal]
        omega
      simp [hid, hneg]
    · simp [beq_iff_eq, hid]
  refine ⟨?_, hb⟩
  have hcond : ¬ ((s.users.any fun u => u.userId == userId &&
      decide (0 ≤ u.balance + -amount)) = true) := by
    rw [hany]
    exact Bool.false_ne_true
  unfold update_user_balance
  rw [if_neg hcond]

/-- Claim C9, witness: the spec scenario — from balance 0, crediting 100
succeeds (balance 100), then debiting 150 fails and the balance stays
100. -/
theorem C9_witness :
    (update_user_balance demoState 1 100).1 = true ∧
    get_user_balance (update_user_balance demoState 1 100).2 1 = 100 ∧
    update_user_balance (update_user_balance demoState 1 100).2 1 (-150)
      = (false, (update_user_balance demoState 1 100).2) :=
  ⟨by decide, by decide,
   (C9_debit_insufficient (update_user_balance demoState 1 100).2 1 100 150
     (by decide) (by decide) (by decide)).1⟩

/-- Claim C10 (confirmed): with a fresh `tx_id`, (a) a `create_transaction`
call that supplies none of the optional kwargs stores a row with
`exchange_rate` 1, `original_currency` `SYP` and `original_amount` equal
to the settlement amount; (b) the recharge flow's `handle_txid` call never
passes an `exchange_rate` key, so every transaction it creates stores
`exchange_rate` 1 while keeping the settlement amount and the (possibly
`None`) original amount/currency it was handed; and (c) the crypto branch
of `handle_amount` computes that settlement amount by multiplying the
foreign-currency input by the current `USDT_RATE`. -/
theorem C10_exchange_rate_defaults (s : DBState) (txId : String)
    (userId : Nat) (amount orig usdtRate usdRate : ℤ) (method : String)
    (pd : PaymentData)
    (hfresh : ∀ t ∈ s.transactions, t.txId ≠ txId) :
    (∃ row : TxRow,
      create_transaction s txId userId amount method none none
          ⟨none, none, none⟩
        = (true, { s with transactions := s.transactions ++ [row] }) ∧
      row.exchangeRate = 1 ∧ row.originalCurrency = some "SYP" ∧
      row.originalAmount = some amount) ∧
    (∃ row : TxRow,
      handle_txid s txId userId pd
        = (true, { s with transactions := s.transactions ++ [row] }) ∧
      row.exchangeRate = 1 ∧ row.amount = pd.amount ∧
      row.originalAmount = pd.originalAmount ∧
      row.originalCurrency = pd.originalCurrency) ∧
    (handle_amount_crypto orig "USDT" usdtRate usdRate).amount
      = orig * usdtRate := by
  have hdup : s.transactions.any (fun t => t.txId == txId) = false := by
    apply any_eq_false_of_forall
    intro t ht
    simp [beq_iff_eq, hfresh t ht]
  have hcond : ¬ ((s.transactions.any fun t => t.txId == txId) = true) := by
    rw [hdup]
    exact Bool.false_ne_true
  have h1 : create_transaction s txId userId amount method none none
      ⟨none, none, none⟩
      = (true, { s with transactions := s.transactions ++ [{
          txId := txId, userId := userId, amount := amount,
          txType := "deposit", paymentMethod := method,
          paymentSubtype := none, paymentNumber := none,
          originalAmount := some amount, originalCurrency := some "SYP",
          exchangeRate := 1, createdAt := s.now, completedAt := none,
          status := "pending", rejectReason := none,
          adminId := none }] }) := by
    unfold create_transaction
    rw [if_neg hcond]
    rfl
  have h2 : handle_txid s txId userId pd
      = (true, { s with transactions := s.transactions ++ [{
          txId := txId, userId := userId, amount := pd.amount,
          txType := "deposit", paymentMethod := pd.paymentMethod,
          paymentSubtype := none, paymentNumber := none,
          originalAmount := pd.originalAmount,
          originalCurrency := pd.originalCurrency,
          exchangeRate := 1, createdAt := s.now, completedAt := none,
          status := "pending", rejectReason := none,
          adminId := none }] }) := by
    unfold handle_txid create_transaction
    rw [if_neg hcond]
    rfl
  exact ⟨⟨_, h1, rfl, rfl, rfl⟩, ⟨_, h2, rfl, rfl, rfl, rfl⟩, rfl⟩

/-- Claim C10, witness: a crypto recharge of 5 USDT at rate 10000 creates,
through `handle_txid`, a transaction with settlement amount 5 * 10000 and
stored exchange rate 1. -/
theorem C10_witness :
    (∀ t ∈ demoState.transactions, t.txId ≠ "TXW") ∧
    (∃ row : TxRow,
      handle_txid demoState "TXW" 1 (handle_amount_crypto 5 "USDT" 10000 9000)
        = (true, { demoState with
            transactions := demoState.transactions ++ [row] }) ∧
      row.exchangeRate = 1 ∧
      row.amount = (handle_amount_crypto 5 "USDT" 10000 9000).amount ∧
      row.originalAmount
        = (handle_amount_crypto 5 "USDT" 10000 9000).originalAmount ∧
      row.originalCurrency
        = (handle_amount_crypto 5 "USDT" 10000 9000).originalCurrency) ∧
    (handle_amount_crypto 5 "USDT" 10000 9000).amount = 5 * 10000 :=
  ⟨by decide,
   (C10_exchange_rate_defaults demoState "TXW" 1 0 5 10000 9000 "crypto"
     (handle_amount_crypto 5 "USDT" 10000 9000) (by decide)).2.1,
   (C10_exchange_rate_defaults demoState "TXW" 1 0 5 10000 9000 "crypto"
     (handle_amount_crypto 5 "USDT" 10000 9000) (by decide)).2.2⟩
